import Mathlib

/-!
Shallow embedding of the building-footprint geometry core of the zoning
repository (`app.py`, `3dbuildings.py`).

The zone-containment part of the code (`WATERLOO_ZONE`, `is_in_waterloo_zone`,
the `max_height` gate) does exact comparisons on decimal coordinate literals,
so it is embedded over `ℚ` and is fully executable.  The footprint-builder
part (`create_building_data`, `rotate_points`, `create_building_polygon`)
uses trigonometric functions, so it is embedded over `ℝ`.
-/

namespace Zoning

/-- The zone record, from `app.py` lines 38-47: a boundary polygon given as a
list of `(longitude, latitude)` pairs, a center, and a height limit. -/
structure Zone where
  coordinates : List (ℚ × ℚ)
  center : ℚ × ℚ
  height_limit : ℚ

/-- The `WATERLOO_ZONE` of `app.py` lines 38-47, corners listed in source order
(northwest, southwest, southeast, northeast), `height_limit = 100`. -/
def WATERLOO_ZONE : Zone :=
  { coordinates := [(-80.5800, 43.4900), (-80.5800, 43.4400),
                    (-80.5000, 43.4400), (-80.5000, 43.4900)]
    center := (-80.5400, 43.4650)
    height_limit := 100 }

/-- Cross product of the edge `a → b` with the vector `a → p`: positive when
`p` is strictly to the left of the directed edge, zero when collinear. -/
def edgeCross (a b p : ℚ × ℚ) : ℚ :=
  (b.1 - a.1) * (p.2 - a.2) - (b.2 - a.2) * (p.1 - a.1)

/-- The consecutive edges of a closed polygon (last vertex connects back to
the first). -/
def polygonEdges (poly : List (ℚ × ℚ)) : List ((ℚ × ℚ) × (ℚ × ℚ)) :=
  match poly with
  | [] => []
  | v :: _ => poly.zip (poly.tail ++ [v])

/-- Model of shapely's `Polygon(...).contains(Point(...))` as called by
`is_in_waterloo_zone` (`app.py` lines 50-53).  Shapely's documented `contains`
holds iff the point lies in the interior of the polygon, boundary excluded.
For the convex quadrilateral used by this program the interior is exactly the
set of points strictly on one same side of every edge, in either orientation. -/
def polygonContains (poly : List (ℚ × ℚ)) (p : ℚ × ℚ) : Bool :=
  (polygonEdges poly).all (fun e => decide (0 < edgeCross e.1 e.2 p)) ||
  (polygonEdges poly).all (fun e => decide (edgeCross e.1 e.2 p < 0))

/-- Embedding of `is_in_waterloo_zone(lon, lat)`, `app.py` lines 50-53: containment of
the point in the `WATERLOO_ZONE` boundary polygon. -/
def is_in_waterloo_zone (lon lat : ℚ) : Bool :=
  polygonContains WATERLOO_ZONE.coordinates (lon, lat)

/-- The value the height gate produces outside the zone, from `app.py` line
168: `max_height = WATERLOO_ZONE['height_limit'] if in_waterloo else 1000`.
It is the explicit out-of-zone sentinel of the code. -/
def unbounded_sentinel : ℚ := 1000

/-- The height gate of `app.py` lines 167-168, generalised over the zone
record it reads: the zone's height limit inside the zone, the sentinel
outside. -/
def max_height (zone : Zone) (lon lat : ℚ) : ℚ :=
  if polygonContains zone.coordinates (lon, lat) then zone.height_limit
  else unbounded_sentinel

/-- A point `p` lies on the closed segment from `a` to `b`: collinear with the
edge and within its bounding box. -/
def onSegment (a b p : ℚ × ℚ) : Prop :=
  edgeCross a b p = 0 ∧
  min a.1 b.1 ≤ p.1 ∧ p.1 ≤ max a.1 b.1 ∧
  min a.2 b.2 ≤ p.2 ∧ p.2 ≤ max a.2 b.2

instance (a b p : ℚ × ℚ) : Decidable (onSegment a b p) := by
  unfold onSegment; infer_instance

/-- A point lies on the boundary of a polygon: on one of its closed edges
(in particular, every vertex lies on its two incident edges). -/
def onPolygonBoundary (poly : List (ℚ × ℚ)) (p : ℚ × ℚ) : Prop :=
  ∃ e ∈ polygonEdges poly, onSegment e.1 e.2 p

noncomputable section

/-- Degrees to radians, as `np.radians`. -/
def radians (d : ℝ) : ℝ := d * Real.pi / 180

/-- The per-point body of `rotate_points` (`app.py` lines 90-95): translate by
`-center`, apply the 2D rotation by `angle` (radians), translate back. -/
def rotatePoint (angle : ℝ) (center point : ℝ × ℝ) : ℝ × ℝ :=
  let px := point.1 - center.1
  let py := point.2 - center.2
  (px * Real.cos angle - py * Real.sin angle + center.1,
   px * Real.sin angle + py * Real.cos angle + center.2)

/-- Embedding of `rotate_points(points, angle_degrees, center)`, `app.py` lines 84-97:
rotate every point of the list about `center` by `angle_degrees` degrees. -/
def rotate_points (points : List (ℝ × ℝ)) (angle_degrees : ℝ)
    (center : ℝ × ℝ) : List (ℝ × ℝ) :=
  points.map (rotatePoint (radians angle_degrees) center)

/-- The record `create_building_data` returns (`app.py` lines 202-205): the
footprint polygon and the building height. -/
structure BuildingData where
  polygon : List (ℝ × ℝ)
  height : ℝ

/-- Embedding of `create_building_data(lon, lat, height, length, width, rotation)`,
`app.py` lines 187-205: fixed-scalar meters-to-degrees conversion
(`meter_to_coord = 0.00001`), axis-aligned rectangle, then rotation about the
center. -/
def create_building_data (lon lat height length width rotation : ℝ) :
    BuildingData :=
  let meter_to_coord : ℝ := 0.00001
  let half_length := (length * meter_to_coord) / 2
  let half_width := (width * meter_to_coord) / 2
  let polygon := [(lon - half_width, lat - half_length),
                  (lon + half_width, lat - half_length),
                  (lon + half_width, lat + half_length),
                  (lon - half_width, lat + half_length)]
  let center := (lon, lat)
  { polygon := rotate_points polygon rotation center, height := height }

/-- Embedding of `create_building_polygon(lat, lon, width, length, height)`,
`3dbuildings.py` lines 19-31: latitude-corrected meters-to-degrees conversion
(`lat_offset = width / 111111`,
`lon_offset = length / (111111 * cos(radians(lat)))`), axis-aligned
rectangle, returned together with the height. -/
def create_building_polygon (lat lon width length height : ℝ) :
    List (ℝ × ℝ) × ℝ :=
  let lat_offset := width / 111111
  let lon_offset := length / (111111 * Real.cos (radians lat))
  ([(lon - lon_offset / 2, lat - lat_offset / 2),
    (lon + lon_offset / 2, lat - lat_offset / 2),
    (lon + lon_offset / 2, lat + lat_offset / 2),
    (lon - lon_offset / 2, lat + lat_offset / 2)], height)

/-- The spec's rotation formula, stated from its words: for vertex `v`, with
`p = v - center`, `p2 = (p.x cos θ - p.y sin θ, p.x sin θ + p.y cos θ)`, then
the result is `p2 + center`, in the flat (longitude, latitude) plane. -/
def rotationSpec (θ : ℝ) (center v : ℝ × ℝ) : ℝ × ℝ :=
  let p := (v.1 - center.1, v.2 - center.2)
  (p.1 * Real.cos θ - p.2 * Real.sin θ + center.1,
   p.1 * Real.sin θ + p.2 * Real.cos θ + center.2)

end

/-- C8: for the zone whose boundary corners are `(-80.58, 43.49)`,
`(-80.58, 43.44)`, `(-80.50, 43.44)`, `(-80.50, 43.49)` (which are exactly the
corners of `WATERLOO_ZONE`), `is_in_waterloo_zone` returns `true` at the
center point `(-80.54, 43.465)` and `false` at the far point
`(-79.0, 43.465)`. -/
theorem contains_center_true_far_outside_false :
    WATERLOO_ZONE.coordinates =
      [(-80.58, 43.49), (-80.58, 43.44), (-80.50, 43.44), (-80.50, 43.49)] ∧
    is_in_waterloo_zone (-80.54) 43.465 = true ∧
    is_in_waterloo_zone (-79) 43.465 = false := by
  refine ⟨by norm_num [WATERLOO_ZONE], ?_, ?_⟩ <;>
    norm_num [is_in_waterloo_zone, polygonContains, polygonEdges, WATERLOO_ZONE,
      edgeCross]

/-- C1: for every zone with `height_limit = 100` whose boundary has the
Waterloo corners, the height gate returns the zone's limit (100) at every
contained point — in particular at the center `(-80.54, 43.465)` — and the
explicit sentinel at every non-contained point; the sentinel is the fixed
value 1000, strictly above the zone's limit and independent of zone and
point. -/
theorem max_height_gating (z : Zone)
    (hc : z.coordinates =
      [(-80.58, 43.49), (-80.58, 43.44), (-80.50, 43.44), (-80.50, 43.49)])
    (hl : z.height_limit = 100) :
    (∀ lon lat, polygonContains z.coordinates (lon, lat) = true →
      max_height z lon lat = 100) ∧
    (∀ lon lat, polygonContains z.coordinates (lon, lat) = false →
      max_height z lon lat = unbounded_sentinel) ∧
    polygonContains z.coordinates (-80.54, 43.465) = true ∧
    max_height z (-80.54) 43.465 = 100 ∧
    z.height_limit < unbounded_sentinel ∧ unbounded_sentinel = 1000 := by
  have hin : polygonContains z.coordinates (-80.54, 43.465) = true := by
    rw [hc]; norm_num [polygonContains, polygonEdges, edgeCross]
  refine ⟨?_, ?_, hin, ?_, ?_, rfl⟩
  · intro lon lat h; simp [max_height, h, hl]
  · intro lon lat h; simp [max_height, h]
  · simp [max_height, hin, hl]
  · rw [hl]; norm_num [unbounded_sentinel]

/-- Witness for C1 at the concrete zone `WATERLOO_ZONE`. -/
theorem max_height_gating_witness :
    (WATERLOO_ZONE.coordinates =
      [(-80.58, 43.49), (-80.58, 43.44), (-80.50, 43.44), (-80.50, 43.49)] ∧
     WATERLOO_ZONE.height_limit = 100) ∧
    ((∀ lon lat, polygonContains WATERLOO_ZONE.coordinates (lon, lat) = true →
      max_height WATERLOO_ZONE lon lat = 100) ∧
    (∀ lon lat, polygonContains WATERLOO_ZONE.coordinates (lon, lat) = false →
      max_height WATERLOO_ZONE lon lat = unbounded_sentinel) ∧
    polygonContains WATERLOO_ZONE.coordinates (-80.54, 43.465) = true ∧
    max_height WATERLOO_ZONE (-80.54) 43.465 = 100 ∧
    WATERLOO_ZONE.height_limit < unbounded_sentinel ∧
    unbounded_sentinel = 1000) :=
  ⟨⟨by norm_num [WATERLOO_ZONE], by norm_num [WATERLOO_ZONE]⟩,
   max_height_gating WATERLOO_ZONE (by norm_num [WATERLOO_ZONE])
     (by norm_num [WATERLOO_ZONE])⟩

/-- C9: containment is strict — every point lying on an edge (or at a vertex)
of the `WATERLOO_ZONE` boundary polygon is reported as outside by
`is_in_waterloo_zone`, so no height limit applies to it. -/
theorem boundary_point_not_contained (lon lat : ℚ)
    (h : onPolygonBoundary WATERLOO_ZONE.coordinates (lon, lat)) :
    is_in_waterloo_zone lon lat = false := by
  obtain ⟨e, he, hseg⟩ := h
  have hz : edgeCross e.1 e.2 (lon, lat) = 0 := hseg.1
  unfold is_in_waterloo_zone polygonContains
  rw [Bool.or_eq_false_iff]
  constructor <;>
  · rw [List.all_eq_false]
    exact ⟨e, he, by simp [hz]⟩

/-- Witness for C9 at the point `(-80.58, 43.465)`, which lies on the western
edge of the zone boundary. -/
theorem boundary_point_not_contained_witness :
    onPolygonBoundary WATERLOO_ZONE.coordinates (-80.58, 43.465) ∧
    is_in_waterloo_zone (-80.58) 43.465 = false := by
  have hb : onPolygonBoundary WATERLOO_ZONE.coordinates (-80.58, 43.465) := by
    refine ⟨((-80.58, 43.49), (-80.58, 43.44)), ?_, ?_⟩
    · norm_num [polygonEdges, WATERLOO_ZONE]
    · norm_num [onSegment, edgeCross]
  exact ⟨hb, boundary_point_not_contained (-80.58) 43.465 hb⟩

theorem radians_zero : radians 0 = 0 := by
  simp [radians]

theorem rotatePoint_zero (center p : ℝ × ℝ) : rotatePoint 0 center p = p := by
  unfold rotatePoint
  simp

theorem rotate_points_zero (ps : List (ℝ × ℝ)) (c : ℝ × ℝ) :
    rotate_points ps 0 c = ps := by
  unfold rotate_points
  rw [radians_zero]
  have h : rotatePoint 0 c = id := funext fun p => rotatePoint_zero c p
  rw [h, List.map_id]

/-- C7: rotating a list of points by some angle about a center and then by
the opposite angle about the same center reproduces the original list,
exactly, in real arithmetic. -/
theorem rotation_round_trip (points : List (ℝ × ℝ)) (angle_degrees : ℝ)
    (center : ℝ × ℝ) :
    rotate_points (rotate_points points angle_degrees center)
      (-angle_degrees) center = points := by
  unfold rotate_points
  rw [List.map_map]
  have key : ∀ p, (rotatePoint (radians (-angle_degrees)) center ∘
      rotatePoint (radians angle_degrees) center) p = p := by
    intro p
    obtain ⟨x, y⟩ := p
    have hr : radians (-angle_degrees) = -(radians angle_degrees) := by
      unfold radians; ring
    have hpyth := Real.sin_sq_add_cos_sq (radians angle_degrees)
    simp only [Function.comp_apply, rotatePoint, hr, Real.cos_neg,
      Real.sin_neg, Prod.mk.injEq]
    constructor
    · linear_combination (x - center.1) * hpyth
    · linear_combination (y - center.2) * hpyth
  rw [funext key]
  simp

/-- C4: under the fixed-scalar policy of `create_building_data`, the degree
extent of the (unrotated) footprint equals `meters * 0.00001` with the same
multiplier on both axes, whatever the center's latitude: the east-west extent
is `width * 0.00001` on both horizontal edges and the north-south extent is
`length * 0.00001` on both vertical edges. -/
theorem fixed_scalar_policy (lon lat height length width : ℝ) :
    ∃ v0 v1 v2 v3,
      (create_building_data lon lat height length width 0).polygon =
        [v0, v1, v2, v3] ∧
      v1.1 - v0.1 = width * 0.00001 ∧ v2.1 - v3.1 = width * 0.00001 ∧
      v3.2 - v0.2 = length * 0.00001 ∧ v2.2 - v1.2 = length * 0.00001 := by
  have hp : (create_building_data lon lat height length width 0).polygon =
      [(lon - width * 0.00001 / 2, lat - length * 0.00001 / 2),
       (lon + width * 0.00001 / 2, lat - length * 0.00001 / 2),
       (lon + width * 0.00001 / 2, lat + length * 0.00001 / 2),
       (lon - width * 0.00001 / 2, lat + length * 0.00001 / 2)] := by
    simp [create_building_data, rotate_points_zero]
  exact ⟨_, _, _, _, hp, by ring, by ring, by ring, by ring⟩

/-- C3: under the latitude-corrected policy of `create_building_polygon`, for
every center with latitude strictly between -90 and 90, the north-south
(latitude) extent of the footprint equals `width / 111111` and the east-west
(longitude) extent equals `length / (111111 * cos(lat * pi / 180))`, the
latitude being converted to radians. -/
theorem latitude_corrected_policy (lat lon width length height : ℝ)
    (h1 : -90 < lat) (h2 : lat < 90) :
    ∃ v0 v1 v2 v3,
      (create_building_polygon lat lon width length height).1 =
        [v0, v1, v2, v3] ∧
      v3.2 - v0.2 = width / 111111 ∧ v2.2 - v1.2 = width / 111111 ∧
      v1.1 - v0.1 = length / (111111 * Real.cos (lat * Real.pi / 180)) ∧
      v2.1 - v3.1 = length / (111111 * Real.cos (lat * Real.pi / 180)) := by
  have hp : (create_building_polygon lat lon width length height).1 =
      [(lon - length / (111111 * Real.cos (lat * Real.pi / 180)) / 2,
        lat - width / 111111 / 2),
       (lon + length / (111111 * Real.cos (lat * Real.pi / 180)) / 2,
        lat - width / 111111 / 2),
       (lon + length / (111111 * Real.cos (lat * Real.pi / 180)) / 2,
        lat + width / 111111 / 2),
       (lon - length / (111111 * Real.cos (lat * Real.pi / 180)) / 2,
        lat + width / 111111 / 2)] := by
    unfold create_building_polygon radians
    norm_num
  exact ⟨_, _, _, _, hp, by ring, by ring, by ring, by ring⟩

/-- Witness for C3 at the concrete center latitude 43.465. -/
theorem latitude_corrected_policy_witness :
    ((-90 : ℝ) < 43.465 ∧ (43.465 : ℝ) < 90) ∧
    (∃ v0 v1 v2 v3,
      (create_building_polygon 43.465 (-80.54) 30 50 100).1 =
        [v0, v1, v2, v3] ∧
      v3.2 - v0.2 = 30 / 111111 ∧ v2.2 - v1.2 = 30 / 111111 ∧
      v1.1 - v0.1 = 50 / (111111 * Real.cos (43.465 * Real.pi / 180)) ∧
      v2.1 - v3.1 = 50 / (111111 * Real.cos (43.465 * Real.pi / 180))) :=
  ⟨⟨by norm_num, by norm_num⟩,
   latitude_corrected_policy 43.465 (-80.54) 30 50 100 (by norm_num)
     (by norm_num)⟩

theorem cos_radians_pos (lat : ℝ) (h1 : -90 < lat) (h2 : lat < 90) :
    0 < Real.cos (radians lat) := by
  have hπ := Real.pi_pos
  apply Real.cos_pos_of_mem_Ioo
  unfold radians
  constructor
  · have := mul_pos (by linarith : (0:ℝ) < lat + 90) hπ
    nlinarith
  · have := mul_pos (by linarith : (0:ℝ) < 90 - lat) hπ
    nlinarith

/-- C5: for positive dimensions and `rotation_deg = 0` (and, for the
latitude-corrected variant, a latitude strictly between -90 and 90), both
footprint builders return exactly 4 vertices forming an axis-aligned
rectangle in south-west, south-east, north-east, north-west order
(counter-clockwise), whose vertex centroid is the center and whose extents,
mapped back through the inverse of the respective conversion, recover the
input `width_m` and `length_m`. -/
theorem rectangle_invariant (lon lat width length height : ℝ)
    (hw : 0 < width) (hl : 0 < length) (h1 : -90 < lat) (h2 : lat < 90) :
    (∃ v0 v1 v2 v3,
      (create_building_data lon lat height length width 0).polygon =
        [v0, v1, v2, v3] ∧
      v0.2 = v1.2 ∧ v3.2 = v2.2 ∧ v0.1 = v3.1 ∧ v1.1 = v2.1 ∧
      v0.1 < v1.1 ∧ v0.2 < v3.2 ∧
      (v0.1 + v1.1 + v2.1 + v3.1) / 4 = lon ∧
      (v0.2 + v1.2 + v2.2 + v3.2) / 4 = lat ∧
      (v1.1 - v0.1) / 0.00001 = width ∧ (v3.2 - v0.2) / 0.00001 = length) ∧
    (∃ v0 v1 v2 v3,
      (create_building_polygon lat lon width length height).1 =
        [v0, v1, v2, v3] ∧
      v0.2 = v1.2 ∧ v3.2 = v2.2 ∧ v0.1 = v3.1 ∧ v1.1 = v2.1 ∧
      v0.1 < v1.1 ∧ v0.2 < v3.2 ∧
      (v0.1 + v1.1 + v2.1 + v3.1) / 4 = lon ∧
      (v0.2 + v1.2 + v2.2 + v3.2) / 4 = lat ∧
      (v3.2 - v0.2) * 111111 = width ∧
      (v1.1 - v0.1) * (111111 * Real.cos (radians lat)) = length) := by
  have hcos := cos_radians_pos lat h1 h2
  constructor
  · have hp : (create_building_data lon lat height length width 0).polygon =
        [(lon - width * 0.00001 / 2, lat - length * 0.00001 / 2),
         (lon + width * 0.00001 / 2, lat - length * 0.00001 / 2),
         (lon + width * 0.00001 / 2, lat + length * 0.00001 / 2),
         (lon - width * 0.00001 / 2, lat + length * 0.00001 / 2)] := by
      simp [create_building_data, rotate_points_zero]
    refine ⟨_, _, _, _, hp, rfl, rfl, rfl, rfl, by nlinarith, by nlinarith,
      by ring, by ring, by field_simp, by field_simp⟩
  · have hq : (create_building_polygon lat lon width length height).1 =
        [(lon - length / (111111 * Real.cos (radians lat)) / 2,
          lat - width / 111111 / 2),
         (lon + length / (111111 * Real.cos (radians lat)) / 2,
          lat - width / 111111 / 2),
         (lon + length / (111111 * Real.cos (radians lat)) / 2,
          lat + width / 111111 / 2),
         (lon - length / (111111 * Real.cos (radians lat)) / 2,
          lat + width / 111111 / 2)] := by
      simp [create_building_polygon]
    have hlonoff : 0 < length / (111111 * Real.cos (radians lat)) :=
      div_pos hl (by positivity)
    refine ⟨_, _, _, _, hq, rfl, rfl, rfl, rfl, by linarith, by nlinarith,
      by ring, by ring, by ring, ?_⟩
    have hne : (111111 : ℝ) * Real.cos (radians lat) ≠ 0 := by positivity
    field_simp
    ring

/-- Witness for C5 at a concrete valid input: center `(-80.54, 43.465)`,
`width = 30`, `length = 50`, `height = 100`. -/
theorem rectangle_invariant_witness :
    ((0 : ℝ) < 30 ∧ (0 : ℝ) < 50 ∧ (-90 : ℝ) < 43.465 ∧ (43.465 : ℝ) < 90) ∧
    ((∃ v0 v1 v2 v3,
      (create_building_data (-80.54) 43.465 100 50 30 0).polygon =
        [v0, v1, v2, v3] ∧
      v0.2 = v1.2 ∧ v3.2 = v2.2 ∧ v0.1 = v3.1 ∧ v1.1 = v2.1 ∧
      v0.1 < v1.1 ∧ v0.2 < v3.2 ∧
      (v0.1 + v1.1 + v2.1 + v3.1) / 4 = -80.54 ∧
      (v0.2 + v1.2 + v2.2 + v3.2) / 4 = 43.465 ∧
      (v1.1 - v0.1) / 0.00001 = 30 ∧ (v3.2 - v0.2) / 0.00001 = 50) ∧
    (∃ v0 v1 v2 v3,
      (create_building_polygon 43.465 (-80.54) 30 50 100).1 =
        [v0, v1, v2, v3] ∧
      v0.2 = v1.2 ∧ v3.2 = v2.2 ∧ v0.1 = v3.1 ∧ v1.1 = v2.1 ∧
      v0.1 < v1.1 ∧ v0.2 < v3.2 ∧
      (v0.1 + v1.1 + v2.1 + v3.1) / 4 = -80.54 ∧
      (v0.2 + v1.2 + v2.2 + v3.2) / 4 = 43.465 ∧
      (v3.2 - v0.2) * 111111 = 30 ∧
      (v1.1 - v0.1) * (111111 * Real.cos (radians 43.465)) = 50)) :=
  ⟨⟨by norm_num, by norm_num, by norm_num, by norm_num⟩,
   rectangle_invariant (-80.54) 43.465 30 50 100 (by norm_num) (by norm_num)
     (by norm_num) (by norm_num)⟩

/-- C6: for every nonzero `rotation_deg`, `create_building_data` returns the
axis-aligned rectangle (its own output at rotation 0) with every vertex
rotated about the center by the spec's 2D rotation formula at
`rotation * pi / 180` radians, and its `height` field equals the input
height. -/
theorem rotation_applied (lon lat height length width rotation : ℝ)
    (h : rotation ≠ 0) :
    (create_building_data lon lat height length width rotation).polygon =
      ((create_building_data lon lat height length width 0).polygon).map
        (rotationSpec (rotation * Real.pi / 180) (lon, lat)) ∧
    (create_building_data lon lat height length width rotation).height =
      height := by
  refine ⟨?_, rfl⟩
  have hbase : (create_building_data lon lat height length width 0).polygon =
      [(lon - width * 0.00001 / 2, lat - length * 0.00001 / 2),
       (lon + width * 0.00001 / 2, lat - length * 0.00001 / 2),
       (lon + width * 0.00001 / 2, lat + length * 0.00001 / 2),
       (lon - width * 0.00001 / 2, lat + length * 0.00001 / 2)] := by
    simp [create_building_data, rotate_points_zero]
  rw [hbase]
  simp [create_building_data, rotate_points, rotatePoint, rotationSpec,
    radians]

/-- Witness for C6 at the concrete nonzero rotation 90. -/
theorem rotation_applied_witness :
    (90 : ℝ) ≠ 0 ∧
    ((create_building_data (-80.54) 43.465 100 50 30 90).polygon =
      ((create_building_data (-80.54) 43.465 100 50 30 0).polygon).map
        (rotationSpec (90 * Real.pi / 180) (-80.54, 43.465)) ∧
    (create_building_data (-80.54) 43.465 100 50 30 90).height = 100) :=
  ⟨by norm_num,
   rotation_applied (-80.54) 43.465 100 50 30 90 (by norm_num)⟩

/-- C10: the two variants map the building dimensions to opposite geographic
axes — `create_building_polygon` puts `width_m` on the north-south (latitude)
axis and `length_m` on the east-west (longitude) axis, while
`create_building_data` puts `width_m` on the east-west axis and `length_m` on
the north-south axis; hence for `width ≠ length` (both positive) the two
rectangles, compared at latitude 0, are not related by per-axis scale
constants alone: the products of opposite-axis extents differ. -/
theorem axis_mapping_swapped (lat lon width length height : ℝ)
    (hw : 0 < width) (hl : 0 < length) (hne : width ≠ length) :
    (∃ v0 v1 v2 v3,
      (create_building_polygon lat lon width length height).1 =
        [v0, v1, v2, v3] ∧
      v3.2 - v0.2 = width / 111111 ∧
      v1.1 - v0.1 = length / (111111 * Real.cos (radians lat))) ∧
    (∃ v0 v1 v2 v3,
      (create_building_data lon lat height length width 0).polygon =
        [v0, v1, v2, v3] ∧
      v1.1 - v0.1 = width * 0.00001 ∧ v3.2 - v0.2 = length * 0.00001) ∧
    (∀ a0 a1 a2 a3 b0 b1 b2 b3,
      (create_building_polygon 0 lon width length height).1 =
        [a0, a1, a2, a3] →
      (create_building_data lon 0 height length width 0).polygon =
        [b0, b1, b2, b3] →
      (a1.1 - a0.1) * (b3.2 - b0.2) ≠ (a3.2 - a0.2) * (b1.1 - b0.1)) := by
  refine ⟨?_, ?_, ?_⟩
  · have hq : (create_building_polygon lat lon width length height).1 =
        [(lon - length / (111111 * Real.cos (radians lat)) / 2,
          lat - width / 111111 / 2),
         (lon + length / (111111 * Real.cos (radians lat)) / 2,
          lat - width / 111111 / 2),
         (lon + length / (111111 * Real.cos (radians lat)) / 2,
          lat + width / 111111 / 2),
         (lon - length / (111111 * Real.cos (radians lat)) / 2,
          lat + width / 111111 / 2)] := by
      simp [create_building_polygon]
    exact ⟨_, _, _, _, hq, by ring, by ring⟩
  · have hp : (create_building_data lon lat height length width 0).polygon =
        [(lon - width * 0.00001 / 2, lat - length * 0.00001 / 2),
         (lon + width * 0.00001 / 2, lat - length * 0.00001 / 2),
         (lon + width * 0.00001 / 2, lat + length * 0.00001 / 2),
         (lon - width * 0.00001 / 2, lat + length * 0.00001 / 2)] := by
      simp [create_building_data, rotate_points_zero]
    exact ⟨_, _, _, _, hp, by ring, by ring⟩
  · intro a0 a1 a2 a3 b0 b1 b2 b3 ha hb
    have hq0 : (create_building_polygon 0 lon width length height).1 =
        [(lon - length / 111111 / 2, 0 - width / 111111 / 2),
         (lon + length / 111111 / 2, 0 - width / 111111 / 2),
         (lon + length / 111111 / 2, 0 + width / 111111 / 2),
         (lon - length / 111111 / 2, 0 + width / 111111 / 2)] := by
      simp [create_building_polygon, radians_zero]
    have hp0 : (create_building_data lon 0 height length width 0).polygon =
        [(lon - width * 0.00001 / 2, 0 - length * 0.00001 / 2),
         (lon + width * 0.00001 / 2, 0 - length * 0.00001 / 2),
         (lon + width * 0.00001 / 2, 0 + length * 0.00001 / 2),
         (lon - width * 0.00001 / 2, 0 + length * 0.00001 / 2)] := by
      simp [create_building_data, rotate_points_zero]
    rw [hq0] at ha
    rw [hp0] at hb
    obtain ⟨ha0, ha1, ha2, ha3⟩ := by
      simpa using ha
    obtain ⟨hb0, hb1, hb2, hb3⟩ := by
      simpa using hb
    subst ha0 ha1 ha2 ha3 hb0 hb1 hb2 hb3
    intro hcontra
    simp only at hcontra
    rcases lt_or_gt_of_ne hne with hlt | hgt
    · nlinarith
    · nlinarith

/-- Witness for C10 at the concrete input `width = 30`, `length = 50` (with
center latitude 43.465). -/
theorem axis_mapping_swapped_witness :
    ((0 : ℝ) < 30 ∧ (0 : ℝ) < 50 ∧ (30 : ℝ) ≠ 50) ∧
    ((∃ v0 v1 v2 v3,
      (create_building_polygon 43.465 (-80.54) 30 50 100).1 =
        [v0, v1, v2, v3] ∧
      v3.2 - v0.2 = 30 / 111111 ∧
      v1.1 - v0.1 = 50 / (111111 * Real.cos (radians 43.465))) ∧
    (∃ v0 v1 v2 v3,
      (create_building_data (-80.54) 43.465 100 50 30 0).polygon =
        [v0, v1, v2, v3] ∧
      v1.1 - v0.1 = 30 * 0.00001 ∧ v3.2 - v0.2 = 50 * 0.00001) ∧
    (∀ a0 a1 a2 a3 b0 b1 b2 b3,
      (create_building_polygon 0 (-80.54) 30 50 100).1 = [a0, a1, a2, a3] →
      (create_building_data (-80.54) 0 100 50 30 0).polygon =
        [b0, b1, b2, b3] →
      (a1.1 - a0.1) * (b3.2 - b0.2) ≠ (a3.2 - a0.2) * (b1.1 - b0.1))) :=
  ⟨⟨by norm_num, by norm_num, by norm_num⟩,
   axis_mapping_swapped 43.465 (-80.54) 30 50 100 (by norm_num) (by norm_num)
     (by norm_num)⟩

/-- C2 counterexample: `create_building_data` does not reject non-positive
dimensions. At center `(-80.54, 43.465)`, `height = 5`, `length = 10`,
`width = -1`, `rotation = 0`, it returns a complete footprint — four concrete
vertices and the height 5 — instead of failing with `InvalidDimension`. -/
theorem no_dimension_rejection_cex :
    (create_building_data (-80.54) 43.465 5 10 (-1) 0).polygon =
      [(-80.539995, 43.46495), (-80.540005, 43.46495),
       (-80.540005, 43.46505), (-80.539995, 43.46505)] ∧
    (create_building_data (-80.54) 43.465 5 10 (-1) 0).height = 5 := by
  constructor
  · have hp : (create_building_data (-80.54) 43.465 5 10 (-1) 0).polygon =
        [(-80.54 - (-1) * 0.00001 / 2, 43.465 - 10 * 0.00001 / 2),
         (-80.54 + (-1) * 0.00001 / 2, 43.465 - 10 * 0.00001 / 2),
         (-80.54 + (-1) * 0.00001 / 2, 43.465 + 10 * 0.00001 / 2),
         (-80.54 - (-1) * 0.00001 / 2, 43.465 + 10 * 0.00001 / 2)] := by
      simp [create_building_data, rotate_points_zero]
    rw [hp]
    norm_num
  · rfl

/-- C2 amended: neither footprint builder performs any dimension validation —
for every input, including `width_m ≤ 0`, `length_m ≤ 0` or `height_m ≤ 0`,
`create_building_data` and `create_building_polygon` return a full 4-vertex
footprint carrying the given height; no `InvalidDimension` failure exists in
the code (the UI widgets alone keep the inputs at least 1). -/
theorem footprint_builders_never_fail
    (lon lat height length width rotation la2 lo2 w2 le2 h2 : ℝ) :
    (create_building_data lon lat height length width rotation).polygon.length
      = 4 ∧
    (create_building_data lon lat height length width rotation).height =
      height ∧
    (create_building_polygon la2 lo2 w2 le2 h2).1.length = 4 ∧
    (create_building_polygon la2 lo2 w2 le2 h2).2 = h2 := by
  refine ⟨?_, rfl, ?_, rfl⟩
  · simp [create_building_data, rotate_points]
  · simp [create_building_polygon]

end Zoning
